import Mathlib

/-!
Verification of the cargo-hitching backend's domain logic against its
natural-language specification.  The Python handlers are shallowly embedded
as pure Lean functions: the database collections become explicit lists that
are threaded through each operation, JSON request bodies become structures,
and the JWT machinery is modelled by a payload record together with a
signature-validity flag.  Every definition is translated from the repository
sources (`routes/trips.py`, `routes/messages.py`, `routes/auth.py`,
`routes/users.py`, `auth_guard.py`, `db.py`, `models.py`).
-/

set_option maxRecDepth 100000

namespace CargoHitching

/-! ### Python string helpers

`pyStrip` models `str.strip()` (whitespace trimmed from both ends),
`pyLower` models `str.lower()` (restricted to the ASCII range handled by
`Char.toLower`; the source data is ASCII identifiers, emails and country
names), `charListLt` models Python's lexicographic `<` on strings
(code-point by code-point, shorter prefix first). -/

def pyStripList (cs : List Char) : List Char :=
  ((cs.dropWhile Char.isWhitespace).reverse.dropWhile Char.isWhitespace).reverse

def pyStrip (s : String) : String :=
  ⟨pyStripList s.toList⟩

def pyLower (s : String) : String :=
  ⟨s.toList.map Char.toLower⟩

/-- `email.split('@')[0]`: everything before the first `'@'` (the whole
string when there is none). -/
def emailLocalPart (s : String) : String :=
  ⟨s.toList.takeWhile (fun c => c ≠ '@')⟩

/-- Python's `<` on strings: lexicographic comparison of code points. -/
def charListLt : List Char → List Char → Bool
  | [], [] => false
  | [], _ :: _ => true
  | _ :: _, [] => false
  | a :: as, b :: bs => if a < b then true else if b < a then false else charListLt as bs

/-- Whether `needle` occurs as a contiguous subsequence of `hay`; used to
model SQL `ILIKE '%x%'` / Mongo `$regex` with `$options: "i"`. -/
def containsSeq (needle hay : List Char) : Bool :=
  (List.range (hay.length + 1)).any (fun i => needle.isPrefixOf (hay.drop i))

/-- Case-insensitive substring test (`Trip.country_from.ilike(f'%{x}%')`). -/
def containsCI (hay needle : String) : Bool :=
  containsSeq (pyLower needle).toList (pyLower hay).toList

def digitsToNat (cs : List Char) : Nat :=
  cs.foldl (fun n c => n * 10 + (c.toNat - '0'.toNat)) 0

/-- Python slice `s[a:b]` on a character list. -/
def pySlice (cs : List Char) (a b : Nat) : List Char :=
  (cs.take b).drop a

/-- `int(s)` restricted to plain decimal digit strings (the only shapes the
handlers ever slice out of an all-digit token); `none` models the
`ValueError` path. -/
def pyInt? (cs : List Char) : Option Nat :=
  if cs ≠ [] ∧ cs.all Char.isDigit then some (digitsToNat cs) else none

/-! ### Calendar dates (`datetime.date`) -/

structure PyDate where
  year : Nat
  month : Nat
  day : Nat
deriving DecidableEq, Repr

def isLeapYear (y : Nat) : Bool :=
  (y % 4 == 0 && y % 100 != 0) || y % 400 == 0

def daysInMonth (y m : Nat) : Nat :=
  if m == 2 then (if isLeapYear y then 29 else 28)
  else if m == 4 || m == 6 || m == 9 || m == 11 then 30
  else 31

/-- The arguments for which `datetime.date(year, month, day)` does not raise
`ValueError`. -/
def validPyDate (year month day : Nat) : Bool :=
  decide (1 ≤ year ∧ year ≤ 9999 ∧ 1 ≤ month ∧ month ≤ 12 ∧
    1 ≤ day ∧ day ≤ daysInMonth year month)

/-- `date.__lt__`: chronological comparison. -/
def PyDate.beforeB (a b : PyDate) : Bool :=
  decide (a.year < b.year ∨ (a.year = b.year ∧
    (a.month < b.month ∨ (a.month = b.month ∧ a.day < b.day))))

/-- `parse_date_from_ddmmyyyy` (routes/trips.py): slices `s[:2]`, `s[2:4]`,
`s[4:8]`, converts each with `int`, builds a `date`; any failure yields
`None`. -/
def parse_date_from_ddmmyyyy (s : String) : Option PyDate :=
  let cs := s.toList
  match pyInt? (pySlice cs 0 2), pyInt? (pySlice cs 2 4), pyInt? (pySlice cs 4 8) with
  | some day, some month, some year =>
      if validPyDate year month day then some ⟨year, month, day⟩ else none
  | _, _, _ => none

/-- The regex `^([01]?[0-9]|2[0-3]):[0-5][0-9]$` used for `departure_time`. -/
def validTimeFormat (s : String) : Bool :=
  match s.toList with
  | [h, ':', m1, m2] =>
      h.isDigit && ('0' ≤ m1 && m1 ≤ '5') && m2.isDigit
  | [h1, h2, ':', m1, m2] =>
      (((h1 == '0' || h1 == '1') && h2.isDigit) || (h1 == '2' && ('0' ≤ h2 && h2 ≤ '3'))) &&
        ('0' ≤ m1 && m1 ≤ '5') && m2.isDigit
  | _ => false

/-- `datetime.strptime(s, '%H:%M')`: one or two digits for the hour (≤ 23),
a literal colon, one or two digits for the minute (≤ 59). -/
def parseTimeHM (s : String) : Option (Nat × Nat) :=
  let cs := s.toList
  let h := cs.takeWhile (fun c => c ≠ ':')
  match cs.dropWhile (fun c => c ≠ ':') with
  | ':' :: m =>
      if h ≠ [] ∧ h.length ≤ 2 ∧ h.all Char.isDigit ∧
         m ≠ [] ∧ m.length ≤ 2 ∧ m.all Char.isDigit ∧
         digitsToNat h ≤ 23 ∧ digitsToNat m ≤ 59
      then some (digitsToNat h, digitsToNat m) else none
  | _ => none

/-! ### Relational models (`models.py`) -/

structure User where
  id : String
  email : String
  first_name : String
  last_name : String
  phone : String
  is_verified : Bool
  created_at : Nat
deriving DecidableEq, Repr

structure Trip where
  id : String
  user_id : String
  country_from : String
  country_to : String
  date : PyDate
  departure_time : Option (Nat × Nat)
  rate_per_kg : Rat
  available_cargo_space : Int
  description : String
  currency : String
  contact_info : String
  status : String
  created_at : Nat
deriving DecidableEq, Repr

/-- The JSON body of a trip create/update request.  A field is `none` when
the key is absent from the dictionary; numeric fields carry the value that
`float`/`int` would produce (the parse-failure error branches of the
validator are not exercised by any claim). -/
structure TripData where
  country_from : Option String := none
  country_to : Option String := none
  date : Option String := none
  departure_time : Option String := none
  rate_per_kg : Option Rat := none
  available_cargo_space : Option Int := none
  description : Option String := none
  currency : Option String := none
  contact_info : Option String := none
deriving DecidableEq, Repr

/-- Python truthiness of an optional string value (`not data[field]`). -/
def truthyStr : Option String → Bool
  | some s => s ≠ ""
  | none => false

def truthyRat : Option Rat → Bool
  | some r => r ≠ 0
  | none => false

def truthyInt : Option Int → Bool
  | some n => n ≠ 0
  | none => false

/-- The date branch of `validate_trip_data`, entered when `data['date']` is
present and truthy.  `today` stands for both `datetime.now()` and
`date.today()` of the source. -/
def validateDateStr (today : PyDate) (s : String) : List String :=
  let cs := s.toList
  if ¬ (cs.length = 8 ∧ cs.all Char.isDigit = true) then ["Date must be in DDMMYYYY format"]
  else
    let day := digitsToNat (pySlice cs 0 2)
    let month := digitsToNat (pySlice cs 2 4)
    let year := digitsToNat (pySlice cs 4 8)
    if ¬ (1 ≤ day ∧ day ≤ 31) then ["Invalid day in date"]
    else if ¬ (1 ≤ month ∧ month ≤ 12) then ["Invalid month in date"]
    else if year < today.year then ["Year cannot be in the past"]
    else if validPyDate year month day then
      if PyDate.beforeB ⟨year, month, day⟩ today then ["Date cannot be in the past"] else []
    else ["Invalid date"]

def lengthErr (name : String) (limit : Nat) : Option String → List String
  | some s => if s ≠ "" ∧ s.length > limit then
      [name ++ " must be less than " ++ toString limit ++ " characters"] else []
  | none => []

/-- `validate_trip_data` (routes/trips.py): returns the accumulated error
list; the caller treats the empty list as "valid". -/
def validate_trip_data (today : PyDate) (d : TripData) : List String :=
  let requiredErrs :=
    (if ¬ truthyStr d.country_from then ["country_from is required"] else []) ++
    (if ¬ truthyStr d.country_to then ["country_to is required"] else []) ++
    (if ¬ truthyStr d.date then ["date is required"] else []) ++
    (if ¬ truthyRat d.rate_per_kg then ["rate_per_kg is required"] else []) ++
    (if ¬ truthyInt d.available_cargo_space then ["available_cargo_space is required"] else [])
  let dateErrs := match d.date with
    | some s => if s = "" then [] else validateDateStr today s
    | none => []
  let timeErrs := match d.departure_time with
    | some s => if s ≠ "" ∧ validTimeFormat s = false then
        ["Departure time must be in HH:MM format"] else []
    | none => []
  let rateErrs := match d.rate_per_kg with
    | some r => if r ≤ 0 then ["Rate per kg must be greater than 0"] else []
    | none => []
  let spaceErrs := match d.available_cargo_space with
    | some n => if n ≤ 0 then ["Available cargo space must be greater than 0"] else []
    | none => []
  let lenErrs :=
    lengthErr "country_from" 100 d.country_from ++
    lengthErr "country_to" 100 d.country_to ++
    lengthErr "description" 1000 d.description ++
    lengthErr "currency" 3 d.currency ++
    lengthErr "contact_info" 500 d.contact_info
  requiredErrs ++ dateErrs ++ timeErrs ++ rateErrs ++ spaceErrs ++ lenErrs

/-- `add_trip` (routes/trips.py): validate, parse the date and optional
departure time, then persist a new `Trip` with status `"active"`.  The
returned list is the trip table after the request; every error branch
leaves it unchanged. -/
def add_trip (current_user_id : String) (d : TripData) (today : PyDate)
    (store : List Trip) (newId : String) (now : Nat) :
    Except (Nat × String) Trip × List Trip :=
  let errs := validate_trip_data today d
  if errs ≠ [] then (.error (400, "Validation failed"), store)
  else
    match parse_date_from_ddmmyyyy (d.date.getD "") with
    | none => (.error (400, "Invalid date format"), store)
    | some trip_date =>
      let dep : Option (Option (Nat × Nat)) := match d.departure_time with
        | some s => if s = "" then some none else (parseTimeHM s).map some
        | none => some none
      match dep with
      | none => (.error (400, "Invalid departure time format"), store)
      | some depTime =>
        let t : Trip := {
          id := newId, user_id := current_user_id,
          country_from := d.country_from.getD "", country_to := d.country_to.getD "",
          date := trip_date, departure_time := depTime,
          rate_per_kg := d.rate_per_kg.getD 0,
          available_cargo_space := d.available_cargo_space.getD 0,
          description := d.description.getD "", currency := d.currency.getD "EUR",
          contact_info := d.contact_info.getD "", status := "active", created_at := now }
        (.ok t, store ++ [t])

/-- `order_by(Trip.created_at.desc())`: any stable sort by descending
creation time; insertion sort keeps the embedding kernel-computable. -/
def sortByCreatedDesc (l : List Trip) : List Trip :=
  l.insertionSort (fun a b => b.created_at ≤ a.created_at)

/-- The optional query parameters of `/trips/search`.  A numeric filter is
`none` when the parameter is absent or fails to parse (the handler silently
skips it in that case). -/
structure SearchFilters where
  country_from : Option String := none
  country_to : Option String := none
  date : Option String := none
  max_rate : Option Rat := none
  min_space : Option Int := none
deriving Repr

/-- The conjunction of filters built by `search_trips` (routes/trips.py). -/
def searchMatch (viewer : Option String) (f : SearchFilters) (t : Trip) : Bool :=
  t.status == "active" &&
  (match viewer with
   | some v => t.user_id != v
   | none => true) &&
  (match f.country_from with
   | some s => if s = "" then true else containsCI t.country_from s
   | none => true) &&
  (match f.country_to with
   | some s => if s = "" then true else containsCI t.country_to s
   | none => true) &&
  (match f.date with
   | some s => if s = "" then true else
       match parse_date_from_ddmmyyyy s with
       | some dt => t.date == dt
       | none => true
   | none => true) &&
  (match f.max_rate with
   | some r => decide (t.rate_per_kg ≤ r)
   | none => true) &&
  (match f.min_space with
   | some n => decide (n ≤ t.available_cargo_space)
   | none => true)

/-- `search_trips` (routes/trips.py): active trips matching all filters,
excluding the authenticated viewer's own, newest created first. -/
def search_trips (viewer : Option String) (f : SearchFilters) (store : List Trip) :
    List Trip :=
  sortByCreatedDesc (store.filter (searchMatch viewer f))

/-- `get_my_trips` (routes/trips.py): `status` query parameter defaults to
`'all'`; any other value is used as an exact status filter. -/
def get_my_trips (current_user_id : String) (status_param : Option String)
    (store : List Trip) : List Trip :=
  let status_filter := status_param.getD "all"
  let q := store.filter (fun t => t.user_id == current_user_id)
  let q := if status_filter ≠ "all" then q.filter (fun t => t.status == status_filter) else q
  sortByCreatedDesc q

/-- `f"{user.first_name} {user.last_name}".strip() or user.email.split('@')[0]`. -/
def displayName (u : User) : String :=
  let n := pyStrip (u.first_name ++ " " ++ u.last_name)
  if n = "" then emailLocalPart u.email else n

/-- The JSON produced by `get_trip`: the trip's fields plus, when the owner
row resolves, a display name and email. -/
structure TripWithUser where
  trip : Trip
  user_name : Option String
  user_email : Option String
deriving DecidableEq, Repr

/-- `get_trip` (routes/trips.py): looks the trip up by primary key and
returns it; there is no status or viewer check on this route. -/
def get_trip (trip_id : String) (store : List Trip) (users : List User) :
    Except (Nat × String) TripWithUser :=
  match store.find? (fun t => t.id == trip_id) with
  | none => .error (404, "Trip not found")
  | some t =>
    match users.find? (fun u => u.id == t.user_id) with
    | none => .ok { trip := t, user_name := none, user_email := none }
    | some u => .ok { trip := t, user_name := some (displayName u), user_email := some u.email }

/-- `get_user_trips` (routes/trips.py), the public-profile listing: the
target user's `active` trips, newest first, capped at 10. -/
def get_user_trips (user_id : String) (users : List User) (store : List Trip) :
    Except (Nat × String) (List Trip) :=
  match users.find? (fun u => u.id == user_id) with
  | none => .error (404, "User not found")
  | some _ =>
    .ok (((sortByCreatedDesc
      (store.filter (fun t => t.user_id == user_id && t.status == "active")))).take 10)

/-- `delete_trip` (routes/trips.py): after the ownership check the handler
calls `db.session.delete(trip)` — the row with that primary key is removed
from the table. -/
def delete_trip (current_user_id : String) (trip_id : String) (store : List Trip) :
    (Nat × String) × List Trip :=
  match store.find? (fun t => t.id == trip_id) with
  | none => ((404, "Trip not found"), store)
  | some t =>
    if t.user_id ≠ current_user_id then ((403, "Unauthorized - not your trip"), store)
    else ((200, "Trip deleted successfully"), store.filter (fun x => x.id ≠ trip_id))

/-! ### Document-store models (`db.py`) -/

/-- A trip document as built by `TripModel.create_trip`. -/
structure MongoTrip where
  _id : String
  user_id : String
  country_from : String
  country_to : String
  date : String
  departure_time : String
  rate_per_kg : Rat
  available_cargo_space : Rat
  original_cargo_space : Rat
  currency : String
  description : String
  contact_info : String
  status : String
  created_at : Nat
  updated_at : Nat
deriving DecidableEq, Repr

/-- `TripModel.delete_trip` (db.py): `update_one` setting
`status: "deleted"` on the document with the given `_id` (unique key);
the `Bool` is `modified_count > 0`. -/
def TripModel.delete_trip (trip_id : String) (now : Nat) (store : List MongoTrip) :
    Bool × List MongoTrip :=
  (store.any (fun t => t._id == trip_id && !(t.status == "deleted" && t.updated_at == now)),
   store.map (fun t =>
     if t._id == trip_id then { t with status := "deleted", updated_at := now } else t))

def sortMongoByCreatedDesc (l : List MongoTrip) : List MongoTrip :=
  l.insertionSort (fun a b => b.created_at ≤ a.created_at)

/-- `TripModel.find_by_user` (db.py): with no truthy status requested the
query adds `status: {$ne: "deleted"}`. -/
def TripModel.find_by_user (user_id : String) (status : Option String)
    (store : List MongoTrip) : List MongoTrip :=
  let p : MongoTrip → Bool := match status with
    | some s => if s ≠ "" then (fun t => t.user_id == user_id && t.status == s)
        else (fun t => t.user_id == user_id && t.status != "deleted")
    | none => fun t => t.user_id == user_id && t.status != "deleted"
  sortMongoByCreatedDesc (store.filter p)

/-- A user document of the `users` collection.  Registration stores
`first_name`/`last_name`; the messaging and profile handlers additionally
read `firstname`/`lastname` keys via `.get(..., '')`, so both spellings are
carried. -/
structure MUser where
  _id : String
  email : String
  first_name : String
  last_name : String
  firstname : String
  lastname : String
  phone : String
  is_verified : Bool
  created_at : Nat
deriving DecidableEq, Repr

/-- `UserModel.find_by_email` (db.py): `find_one` on
`email.lower().strip()`. -/
def UserModel.find_by_email (email : String) (users : List MUser) : Option MUser :=
  users.find? (fun u => u.email == pyStrip (pyLower email))

/-- `UserModel.find_by_id` (db.py); an unparseable `ObjectId` also yields
`None`, which the list lookup subsumes. -/
def UserModel.find_by_id (user_id : String) (users : List MUser) : Option MUser :=
  users.find? (fun u => u._id == user_id)

/-! ### Messaging (`routes/messages.py`) -/

structure MessageDoc where
  _id : String
  sender_id : String
  recipient_id : String
  trip_id : Option String
  message : String
  created_at : Nat
  read : Bool
  conversation_id : String
deriving DecidableEq, Repr

/-- The JSON body of `/messages/send`; the handler requires all three keys
to be present (`trip_id` may be null, modelled by `none`). -/
structure SendRequest where
  recipient_id : String
  message : String
  trip_id : Option String
deriving DecidableEq, Repr

/-- `generate_conversation_id` (routes/messages.py): the two ids sorted by
Python string comparison, joined with `"_"`. -/
def generate_conversation_id (user1_id user2_id : String) : String :=
  if charListLt user2_id.toList user1_id.toList
  then user2_id ++ "_" ++ user1_id
  else user1_id ++ "_" ++ user2_id

/-- `send_message` (routes/messages.py).  The authenticated sender document
is supplied by the `token_required` decorator.  Checks run in source order:
stripped-length bounds, recipient lookup, self-message ban, optional trip
resolution; success inserts a document with `read = False`. -/
def send_message (sender : MUser) (req : SendRequest) (users : List MUser)
    (trips : List MongoTrip) (msgs : List MessageDoc) (newId : String) (now : Nat) :
    Except (Nat × String) MessageDoc × List MessageDoc :=
  let message_text := pyStrip req.message
  if message_text.length < 1 then (.error (400, "Message cannot be empty"), msgs)
  else if message_text.length > 1000 then
    (.error (400, "Message too long (max 1000 characters)"), msgs)
  else
    match users.find? (fun u => u._id == req.recipient_id) with
    | none => (.error (404, "Recipient not found"), msgs)
    | some _ =>
      if sender._id = req.recipient_id then
        (.error (400, "Cannot send message to yourself"), msgs)
      else
        let tripRef : Option String := match req.trip_id with
          | some s => if s = "" then none else some s
          | none => none
        let tripOk : Bool := match tripRef with
          | some tid => trips.any (fun t => t._id == tid)
          | none => true
        if ¬ tripOk then (.error (404, "Trip not found"), msgs)
        else
          let doc : MessageDoc := {
            _id := newId, sender_id := sender._id, recipient_id := req.recipient_id,
            trip_id := tripRef, message := message_text, created_at := now,
            read := false,
            conversation_id := generate_conversation_id sender._id req.recipient_id }
          (.ok doc, msgs ++ [doc])

/-- The `update_many` filter of `mark_messages_read` (and of the read
side effect in `get_conversation`): unread messages of the conversation
addressed to the viewer. -/
def markReadMatch (viewer_id conversation_id : String) (m : MessageDoc) : Bool :=
  m.conversation_id == conversation_id && m.recipient_id == viewer_id && m.read == false

/-- `mark_messages_read` (routes/messages.py): sets `read := true` on every
matching document and returns the new collection together with
`modified_count`. -/
def mark_messages_read (viewer_id conversation_id : String) (msgs : List MessageDoc) :
    List MessageDoc × Nat :=
  (msgs.map (fun m => if markReadMatch viewer_id conversation_id m
      then { m with read := true } else m),
   (msgs.filter (markReadMatch viewer_id conversation_id)).length)

/-! ### Tokens and guards (`auth_guard.py`, `routes/auth.py`) -/

/-- The claims of a JWT.  Optional fields model keys that a given issuer
may omit (`payload.get(...)`/`payload[...]` in the handlers). -/
structure TokenPayload where
  user_id : Option String
  email : Option String
  type : Option String
  exp : Int
deriving DecidableEq, Repr

/-- A token as presented by a client: its decoded claims plus whether its
signature verifies under the server's `JWT_SECRET`. -/
structure PresentedToken where
  payload : TokenPayload
  signatureValid : Bool
deriving DecidableEq, Repr

/-- `jwt.decode(...)` as used throughout: signature check then expiry
check; `now` is the verification time in seconds. -/
def decode_jwt_token (now : Int) (t : PresentedToken) : Option TokenPayload :=
  if ¬ t.signatureValid then none
  else if t.payload.exp ≤ now then none
  else some t.payload

/-- `token_required` (auth_guard.py): bearer token present, signature and
expiry valid, `type == 'access'`, user resolves by email and is verified.
A valid access token without an `email` claim makes `find_by_email` throw
(`None.lower()`), surfacing as a 500 — modelled by the 500 branch. -/
def token_required_check (now : Int) (tok : Option PresentedToken) (users : List MUser) :
    Except (Nat × String) MUser :=
  match tok with
  | none => .error (401, "Token is missing")
  | some t =>
    match decode_jwt_token now t with
    | none => .error (401, "Invalid or expired token")
    | some payload =>
      if payload.type ≠ some "access" then .error (401, "Invalid token type")
      else
        match payload.email with
        | none => .error (500, "AttributeError")
        | some e =>
          match UserModel.find_by_email e users with
          | none => .error (401, "User not found")
          | some user =>
            if ¬ user.is_verified then .error (401, "Email not verified")
            else .ok user

/-- `verify_token` (routes/auth.py): decodes the bearer token and resolves
`payload["user_id"]`; a missing `user_id` key raises and is caught by the
blanket handler (401).  No check of the `type` claim is performed. -/
def verify_token (now : Int) (tok : Option PresentedToken) (users : List MUser) :
    Except (Nat × String) MUser :=
  match tok with
  | none => .error (401, "Token is missing")
  | some t =>
    if ¬ t.signatureValid then .error (401, "Invalid token")
    else if t.payload.exp ≤ now then .error (401, "Token expired")
    else
      match t.payload.user_id with
      | none => .error (401, "Token verification failed")
      | some uid =>
        match UserModel.find_by_id uid users with
        | none => .error (401, "User not found")
        | some user => .ok user

/-- `refresh_token` (routes/auth.py): decodes the bearer token, requires
`payload.get("type") == "remember"`, resolves the user, and mints a fresh
one-hour access token (`create_session_token(user, remember_me=True)`). -/
def refresh_token (now : Int) (tok : Option PresentedToken) (users : List MUser) :
    Except (Nat × String) TokenPayload :=
  match tok with
  | none => .error (401, "Token is missing")
  | some t =>
    if ¬ t.signatureValid then .error (401, "Invalid remember token")
    else if t.payload.exp ≤ now then .error (401, "Remember token expired")
    else
      if t.payload.type ≠ some "remember" then .error (401, "Invalid token type for refresh")
      else
        match t.payload.user_id with
        | none => .error (401, "Token refresh failed")
        | some uid =>
          match UserModel.find_by_id uid users with
          | none => .error (401, "User not found")
          | some user =>
            .ok { user_id := some user._id, email := some user.email,
                  type := some "access", exp := now + 3600 }

/-! ### Sample data used by the concrete witnesses and counterexamples -/

def tripAlice : Trip :=
  { id := "t1", user_id := "alice", country_from := "US", country_to := "CA",
    date := ⟨2030, 1, 1⟩, departure_time := none, rate_per_kg := 5,
    available_cargo_space := 20, description := "", currency := "EUR",
    contact_info := "", status := "active", created_at := 100 }

def tripDeleted : Trip :=
  { tripAlice with id := "t2", status := "deleted" }

def tripCompleted : Trip :=
  { tripAlice with id := "t3", status := "completed" }

def tripOther : Trip :=
  { tripAlice with id := "t4" }

def todaySample : PyDate := ⟨2026, 10, 12⟩

def sameCountryData : TripData :=
  { country_from := some "US", country_to := some "us", date := some "01012030",
    rate_per_kg := some 5, available_cargo_space := some 20 }

def zeroSpaceData : TripData :=
  { country_from := some "US", country_to := some "CA", date := some "01012030",
    rate_per_kg := some 5, available_cargo_space := some 0 }

def pastDateData : TripData :=
  { country_from := some "US", country_to := some "CA", date := some "01012020",
    rate_per_kg := some 5, available_cargo_space := some 20 }

def senderA : MUser :=
  { _id := "a", email := "a@x.com", first_name := "A", last_name := "",
    firstname := "", lastname := "", phone := "", is_verified := true, created_at := 1 }

def recipientB : MUser :=
  { senderA with _id := "b", email := "b@x.com" }

def longBody : String := ⟨List.replicate 1000 'x' ++ [' ']⟩

def exactBody : String := ⟨List.replicate 1000 'y'⟩

def msgToViewer : MessageDoc :=
  { _id := "m1", sender_id := "b", recipient_id := "a", trip_id := none,
    message := "hi", created_at := 1, read := false, conversation_id := "a_b" }

def msgFromViewer : MessageDoc :=
  { msgToViewer with _id := "m2", sender_id := "a", recipient_id := "b" }

def rememberUser : MUser :=
  { senderA with _id := "u1", email := "u1@x.com" }

def rememberPayload : TokenPayload :=
  { user_id := some "u1", email := some "u1@x.com", type := some "remember", exp := 1000 }

def rememberToken : PresentedToken :=
  { payload := rememberPayload, signatureValid := true }

def accessPayload : TokenPayload :=
  { user_id := some "u1", email := some "u1@x.com", type := some "access", exp := 1000 }

def accessToken : PresentedToken :=
  { payload := accessPayload, signatureValid := true }

def unverifiedUser : MUser :=
  { senderA with _id := "u2", email := "u2@x.com", is_verified := false }

def unverifiedPayload : TokenPayload :=
  { user_id := some "u2", email := some "u2@x.com", type := some "access", exp := 1000 }

def unverifiedAccessToken : PresentedToken :=
  { payload := unverifiedPayload, signatureValid := true }

/-! ## Theorems -/

theorem charListLt_asymm (a b : List Char) (h : charListLt a b = true) :
    charListLt b a = false := by
  induction a generalizing b with
  | nil =>
    cases b with
    | nil => simp [charListLt] at h
    | cons d ds => simp [charListLt]
  | cons c cs ih =>
    cases b with
    | nil => simp [charListLt] at h
    | cons d ds =>
      simp only [charListLt] at h ⊢
      by_cases h1 : c < d
      · rw [if_neg (by exact fun hdc => absurd h1 (lt_asymm hdc)), if_pos h1]
      · by_cases h2 : d < c
        · rw [if_neg h1, if_pos h2] at h
          exact absurd h (by simp)
        · rw [if_neg h1, if_neg h2] at h
          rw [if_neg h2, if_neg h1]
          exact ih ds h

theorem charListLt_conn (a b : List Char) (h1 : charListLt a b = false)
    (h2 : charListLt b a = false) : a = b := by
  induction a generalizing b with
  | nil =>
    cases b with
    | nil => rfl
    | cons d ds => simp [charListLt] at h1
  | cons c cs ih =>
    cases b with
    | nil => simp [charListLt] at h2
    | cons d ds =>
      simp only [charListLt] at h1 h2
      by_cases g1 : c < d
      · rw [if_pos g1] at h1
        exact absurd h1 (by simp)
      · by_cases g2 : d < c
        · rw [if_pos g2] at h2
          exact absurd h2 (by simp)
        · rw [if_neg g1, if_neg g2] at h1
          rw [if_neg g2, if_neg g1] at h2
          have hcd : c = d := le_antisymm (not_lt.mp g2) (not_lt.mp g1)
          rw [hcd, ih ds h1 h2]

/-- C1: for every pair of user ids `A` and `B`, the derived conversation id
satisfies `conversationId(A,B) = conversationId(B,A)`, and it is the two ids
sorted lexicographically (Python string `<`) and joined with the separator
`"_"`; determinism across calls is immediate since the embedding is a pure
function of the pair. -/
theorem conversationId_comm_and_sorted (a b : String) :
    generate_conversation_id a b = generate_conversation_id b a ∧
    (charListLt b.toList a.toList = false →
      generate_conversation_id a b = a ++ "_" ++ b) ∧
    (charListLt a.toList b.toList = false →
      generate_conversation_id a b = b ++ "_" ++ a) := by
  obtain ⟨da⟩ := a
  obtain ⟨db⟩ := b
  refine ⟨?_, ?_, ?_⟩
  · unfold generate_conversation_id
    by_cases h1 : charListLt db da = true
    · rw [if_pos (show charListLt (String.mk db).toList (String.mk da).toList = true from h1),
        if_neg (by simp [String.toList, charListLt_asymm _ _ h1])]
    · have h1f : charListLt db da = false := by
        exact Bool.not_eq_true _ ▸ (by simpa using h1)
      by_cases h2 : charListLt da db = true
      · rw [if_neg (by simp [String.toList, h1f]),
          if_pos (show charListLt (String.mk da).toList (String.mk db).toList = true from h2)]
      · have h2f : charListLt da db = false := by
          exact Bool.not_eq_true _ ▸ (by simpa using h2)
        have : da = db := charListLt_conn da db h2f h1f
        subst this
        rfl
  · intro h
    unfold generate_conversation_id
    rw [if_neg (by simp [String.toList] at h ⊢; simp [h])]
  · intro h
    unfold generate_conversation_id
    by_cases hba : charListLt db da = true
    · rw [if_pos (show charListLt (String.mk db).toList (String.mk da).toList = true from hba)]
    · have hbaf : charListLt db da = false := by
        exact Bool.not_eq_true _ ▸ (by simpa using hba)
      have h2f : charListLt da db = false := by simpa [String.toList] using h
      have : da = db := charListLt_conn da db h2f hbaf
      subst this
      rw [if_neg (by simp [String.toList, hbaf])]

/-- C1 witness: the symmetry and sorted-join shape at concrete ids. -/
theorem conversationId_comm_and_sorted_witness :
    charListLt "bob".toList "alice".toList = false ∧
    generate_conversation_id "alice" "bob" = "alice" ++ "_" ++ "bob" ∧
    generate_conversation_id "alice" "bob" = generate_conversation_id "bob" "alice" :=
  ⟨by decide, (conversationId_comm_and_sorted "alice" "bob").2.1 (by decide),
    (conversationId_comm_and_sorted "alice" "bob").1⟩

/-- C2 counterexample: the registered delete route physically removes the
record.  With a single trip owned by the caller, the handler answers 200 and
the trip table afterwards is empty — no record with status `"deleted"`
remains, contradicting "soft delete only, never physically removes". -/
theorem delete_trip_hard_delete_cex :
    (delete_trip "alice" "t1" [tripAlice]).1.1 = 200 ∧
    (delete_trip "alice" "t1" [tripAlice]).2 = [] := by decide

/-- C2 (amended): the registered `delete_trip` route fails with 403 and
leaves the store unchanged when the caller is not the owner; when the caller
is the owner it physically removes the record (every other record is kept,
none with the deleted id survives).  The document-store helper
`TripModel.delete_trip`, which no route calls, is the soft delete: it keeps
every document and sets the matching document's status to `"deleted"`. -/
theorem delete_trip_forbidden_and_hard_delete (caller trip_id : String)
    (store : List Trip) (t : Trip)
    (ht : store.find? (fun x => x.id == trip_id) = some t)
    (now : Nat) (mstore : List MongoTrip) :
    (t.user_id ≠ caller →
      delete_trip caller trip_id store = ((403, "Unauthorized - not your trip"), store)) ∧
    (t.user_id = caller →
      (delete_trip caller trip_id store).1.1 = 200 ∧
      ∀ x, x ∈ (delete_trip caller trip_id store).2 ↔ (x ∈ store ∧ x.id ≠ trip_id)) ∧
    ((TripModel.delete_trip trip_id now mstore).2.length = mstore.length ∧
      (∀ m ∈ mstore, m._id ≠ trip_id → m ∈ (TripModel.delete_trip trip_id now mstore).2) ∧
      (∀ m ∈ mstore, m._id = trip_id →
        { m with status := "deleted", updated_at := now } ∈
          (TripModel.delete_trip trip_id now mstore).2)) := by
  refine ⟨?_, ?_, ?_, ?_, ?_⟩
  · intro h
    simp only [delete_trip, ht]
    rw [if_pos h]
  · intro h
    simp only [delete_trip, ht]
    rw [if_neg (by simp [h])]
    refine ⟨rfl, ?_⟩
    intro x
    simp [List.mem_filter]
  · unfold TripModel.delete_trip
    simp
  · intro m hm hne
    unfold TripModel.delete_trip
    simp only []
    have : (if m._id == trip_id then { m with status := "deleted", updated_at := now } else m) = m := by
      rw [if_neg (by simp [hne])]
    exact this ▸ List.mem_map_of_mem _ hm
  · intro m hm he
    unfold TripModel.delete_trip
    simp only []
    have : (if m._id == trip_id then { m with status := "deleted", updated_at := now } else m) =
        { m with status := "deleted", updated_at := now } := by
      rw [if_pos (by simp [he])]
    exact this ▸ List.mem_map_of_mem _ hm

/-- C2 witness: the amended theorem applied at concrete data — a non-owner
caller is refused with the store untouched, and the unused document-store
helper marks the document deleted while keeping it. -/
theorem delete_trip_forbidden_and_hard_delete_witness :
    ([tripAlice].find? (fun x => x.id == "t1") = some tripAlice) ∧
    delete_trip "mallory" "t1" [tripAlice] =
      ((403, "Unauthorized - not your trip"), [tripAlice]) :=
  ⟨by decide,
    (delete_trip_forbidden_and_hard_delete "mallory" "t1" [tripAlice] tripAlice
      (by decide) 7 []).1 (by decide)⟩

/-- C3 counterexample: a soft-deleted trip DOES appear in the owner's trip
listing when no status filter is supplied — the route defaults the `status`
query parameter to `'all'` and then applies no status restriction at all. -/
theorem my_trips_default_includes_deleted_cex :
    tripDeleted.status = "deleted" ∧
    get_my_trips "alice" none [tripDeleted] = [tripDeleted] := by decide

/-- C3 (amended): a trip with status `"deleted"` never appears in `Search`
results — for any viewer, authenticated or anonymous (the route is
optional-token) — nor in the public per-user listing, and it appears in
`MyTrips` when `status="deleted"` is requested explicitly; but `MyTrips`
without an explicit status returns all of the owner's trips, deleted ones
included (the defaulted filter is `'all'`).  The document-store helper
`TripModel.find_by_user` — which no route calls — does exclude deleted
trips by default. -/
theorem deleted_trip_visibility (owner uid : String) (f : SearchFilters)
    (store : List Trip) (users : List User) (mstore : List MongoTrip) (t : Trip) :
    (∀ v : Option String, t.status = "deleted" → t ∉ search_trips v f store) ∧
    (t.status = "deleted" → ∀ r, get_user_trips uid users store = .ok r → t ∉ r) ∧
    (t ∈ store → t.user_id = owner → t ∈ get_my_trips owner none store) ∧
    (t ∈ store → t.user_id = owner → t.status = "deleted" →
      t ∈ get_my_trips owner (some "deleted") store) ∧
    (∀ m : MongoTrip, m ∈ TripModel.find_by_user owner none mstore →
      m.status ≠ "deleted") := by
  refine ⟨?_, ?_, ?_, ?_, ?_⟩
  · intro v hdel hmem
    unfold search_trips sortByCreatedDesc at hmem
    rw [List.mem_insertionSort] at hmem
    have := (List.mem_filter.mp hmem).2
    unfold searchMatch at this
    simp only [Bool.and_eq_true, beq_iff_eq] at this
    exact absurd (this.1.1.1.1.1.1 ▸ hdel) (by decide)
  · intro hdel r hr hmem
    unfold get_user_trips at hr
    cases hfind : users.find? (fun u => u.id == uid) with
    | none => rw [hfind] at hr; exact absurd hr (by simp)
    | some u =>
      rw [hfind] at hr
      have hr2 : r = (sortByCreatedDesc
          (store.filter (fun t0 => t0.user_id == uid && t0.status == "active"))).take 10 := by
        simpa using hr.symm
      rw [hr2] at hmem
      have hmem2 := List.mem_of_mem_take hmem
      unfold sortByCreatedDesc at hmem2
      rw [List.mem_insertionSort] at hmem2
      have := (List.mem_filter.mp hmem2).2
      simp only [Bool.and_eq_true, beq_iff_eq] at this
      exact absurd (this.2 ▸ hdel) (by decide)
  · intro hmem howner
    unfold get_my_trips sortByCreatedDesc
    simp only [Option.getD_some]
    rw [if_neg (by simp)]
    rw [List.mem_insertionSort]
    exact List.mem_filter.mpr ⟨hmem, by simp [howner]⟩
  · intro hmem howner hdel
    unfold get_my_trips sortByCreatedDesc
    simp only [Option.getD_some]
    rw [if_pos (by decide)]
    rw [List.mem_insertionSort]
    exact List.mem_filter.mpr ⟨List.mem_filter.mpr ⟨hmem, by simp [howner]⟩, by simp [hdel]⟩
  · intro m hmem
    unfold TripModel.find_by_user sortMongoByCreatedDesc at hmem
    rw [List.mem_insertionSort] at hmem
    have := (List.mem_filter.mp hmem).2
    simp only [Bool.and_eq_true, bne_iff_ne] at this
    exact this.2

/-- C3 witness: the amended theorem applied at concrete data — a deleted
trip is invisible to search for an authenticated and for an anonymous
viewer alike, yet listed by the defaulted and by the explicit
`status="deleted"` owner listing. -/
theorem deleted_trip_visibility_witness :
    tripDeleted.status = "deleted" ∧
    tripDeleted ∉ search_trips (some "bob") {} [tripDeleted] ∧
    tripDeleted ∉ search_trips none {} [tripDeleted] ∧
    tripDeleted ∈ get_my_trips "alice" none [tripDeleted] ∧
    tripDeleted ∈ get_my_trips "alice" (some "deleted") [tripDeleted] :=
  ⟨rfl,
    (deleted_trip_visibility "alice" "u" {} [tripDeleted] [] [] tripDeleted).1
      (some "bob") rfl,
    (deleted_trip_visibility "alice" "u" {} [tripDeleted] [] [] tripDeleted).1 none rfl,
    (deleted_trip_visibility "alice" "u" {} [tripDeleted] [] [] tripDeleted).2.2.1
      (by decide) rfl,
    (deleted_trip_visibility "alice" "u" {} [tripDeleted] [] [] tripDeleted).2.2.2.1
      (by decide) rfl rfl⟩

theorem pyInt_eq (cs : List Char) (v : Nat) (h : pyInt? cs = some v) :
    v = digitsToNat cs := by
  unfold pyInt? at h
  split at h
  · exact (Option.some.inj h).symm
  · simp at h

theorem add_trip_rejects (u : String) (d : TripData) (today : PyDate) (store : List Trip)
    (newId : String) (now : Nat) (h : validate_trip_data today d ≠ []) :
    add_trip u d today store newId now = (.error (400, "Validation failed"), store) := by
  simp only [add_trip]
  rw [if_pos h]

theorem date_validation_rejects_past (today : PyDate) (s : String) (dt : PyDate)
    (hparse : parse_date_from_ddmmyyyy s = some dt)
    (hbefore : PyDate.beforeB dt today = true) :
    validateDateStr today s ≠ [] := by
  intro hnil
  simp only [parse_date_from_ddmmyyyy] at hparse
  cases h1 : pyInt? (pySlice s.toList 0 2) with
  | none => rw [h1] at hparse; simp at hparse
  | some dayv =>
    cases h2 : pyInt? (pySlice s.toList 2 4) with
    | none => rw [h2] at hparse; simp at hparse
    | some monthv =>
      cases h3 : pyInt? (pySlice s.toList 4 8) with
      | none => rw [h3] at hparse; simp at hparse
      | some yearv =>
        simp only [h1, h2, h3] at hparse
        by_cases hv : validPyDate yearv monthv dayv = true
        · rw [if_pos hv] at hparse
          have hdt : (⟨yearv, monthv, dayv⟩ : PyDate) = dt := Option.some.inj hparse
          have hd1 : dayv = digitsToNat (pySlice s.toList 0 2) := pyInt_eq _ _ h1
          have hm1 : monthv = digitsToNat (pySlice s.toList 2 4) := pyInt_eq _ _ h2
          have hy1 : yearv = digitsToNat (pySlice s.toList 4 8) := pyInt_eq _ _ h3
          simp only [validateDateStr] at hnil
          split at hnil
          · simp at hnil
          · split at hnil
            · simp at hnil
            · split at hnil
              · simp at hnil
              · split at hnil
                · simp at hnil
                · split at hnil
                  · split at hnil
                    · simp at hnil
                    · rename_i hb
                      apply hb
                      rw [← hy1, ← hm1, ← hd1, hdt]
                      exact hbefore
                  · simp at hnil
        · rw [if_neg hv] at hparse
          simp at hparse

/-- C4 counterexample: trip creation does NOT reject identical origin and
destination countries — `validate_trip_data` never compares them.  A
request with `country_from = "US"` and `country_to = "us"` (identical up to
case) passes validation and is persisted. -/
theorem identical_countries_accepted_cex :
    pyLower (sameCountryData.country_from.getD "") =
      pyLower (sameCountryData.country_to.getD "") ∧
    validate_trip_data todaySample sameCountryData = [] ∧
    (add_trip "alice" sameCountryData todaySample [] "t9" 50).1.isOk = true := by decide

/-- C4 (amended): trip creation rejects (validation error, nothing
persisted) every input whose available cargo space is zero or negative,
every input whose rate per kg is zero or negative, and every input whose
date resolves to a calendar day before today; it performs no comparison of
origin and destination countries, so identical countries are accepted. -/
theorem trip_validation_rejections (u : String) (d : TripData) (today : PyDate)
    (store : List Trip) (newId : String) (now : Nat) :
    (∀ n, d.available_cargo_space = some n → n ≤ 0 →
      add_trip u d today store newId now = (.error (400, "Validation failed"), store)) ∧
    (∀ r, d.rate_per_kg = some r → r ≤ 0 →
      add_trip u d today store newId now = (.error (400, "Validation failed"), store)) ∧
    (∀ s dt, d.date = some s → parse_date_from_ddmmyyyy s = some dt →
      PyDate.beforeB dt today = true →
      add_trip u d today store newId now = (.error (400, "Validation failed"), store)) := by
  refine ⟨?_, ?_, ?_⟩
  · intro n hn hle
    apply add_trip_rejects
    intro hnil
    simp [validate_trip_data, hn, hle, List.append_eq_nil] at hnil
  · intro r hr hle
    apply add_trip_rejects
    intro hnil
    simp [validate_trip_data, hr, hle, List.append_eq_nil] at hnil
  · intro s dt hs hparse hbefore
    apply add_trip_rejects
    have hsne : s ≠ "" := by
      intro he
      rw [he] at hparse
      simp [parse_date_from_ddmmyyyy, pySlice, pyInt?] at hparse
    intro hnil
    have hds := date_validation_rejects_past today s dt hparse hbefore
    simp only [validate_trip_data, hs] at hnil
    rw [if_neg hsne] at hnil
    rcases List.append_eq_nil.mp hnil with ⟨hA, _⟩
    rcases List.append_eq_nil.mp hA with ⟨hB, _⟩
    rcases List.append_eq_nil.mp hB with ⟨hC, _⟩
    rcases List.append_eq_nil.mp hC with ⟨hD, _⟩
    rcases List.append_eq_nil.mp hD with ⟨_, hdate⟩
    exact hds hdate

/-- C4 witness: the amended rejections at concrete inputs — zero cargo
space and a past date are both refused with nothing persisted. -/
theorem trip_validation_rejections_witness :
    add_trip "u" zeroSpaceData todaySample [] "t" 0 =
      (.error (400, "Validation failed"), []) ∧
    add_trip "u" pastDateData todaySample [] "t" 0 =
      (.error (400, "Validation failed"), []) :=
  ⟨(trip_validation_rejections "u" zeroSpaceData todaySample [] "t" 0).1 0 rfl (by decide),
   (trip_validation_rejections "u" pastDateData todaySample [] "t" 0).2.2 "01012020"
     ⟨2020, 1, 1⟩ rfl (by decide) (by decide)⟩

/-- C5 counterexample: a non-active trip is served to every caller.  The
route takes no viewer and checks no status: a `"completed"` trip owned by
`"alice"` is returned with 200 (not 404) to whoever asks. -/
theorem get_trip_nonactive_visible_cex :
    tripCompleted.status = "completed" ∧
    get_trip "t3" [tripCompleted] [] =
      .ok { trip := tripCompleted, user_name := none, user_email := none } :=
  ⟨by decide, rfl⟩

/-- C5 (amended): GetById fails with NotFound exactly when no trip has the
requested id; when a trip with the id exists it is returned regardless of
its status and of who (if anyone) views it. -/
theorem get_trip_behavior (trip_id : String) (store : List Trip) (users : List User) :
    (store.find? (fun t => t.id == trip_id) = none →
      get_trip trip_id store users = .error (404, "Trip not found")) ∧
    (∀ t, store.find? (fun t0 => t0.id == trip_id) = some t →
      ∃ r, get_trip trip_id store users = .ok r ∧ r.trip = t) := by
  constructor
  · intro h
    simp only [get_trip, h]
  · intro t ht
    simp only [get_trip, ht]
    cases hu : users.find? (fun u => u.id == t.user_id) with
    | none => exact ⟨_, rfl, rfl⟩
    | some u => exact ⟨_, rfl, rfl⟩

/-- C5 witness: the amended behavior at concrete stores — missing id gives
404, an existing (non-active) trip is returned. -/
theorem get_trip_behavior_witness :
    get_trip "zzz" [] [] = .error (404, "Trip not found") ∧
    ∃ r, get_trip "t3" [tripCompleted] [] = .ok r ∧ r.trip = tripCompleted :=
  ⟨(get_trip_behavior "zzz" [] []).1 rfl,
    (get_trip_behavior "t3" [tripCompleted] []).2 tripCompleted (by decide)⟩

/-- C6: every trip returned by an authenticated search has status
`"active"` and an owner different from the viewer, and the result list is
ordered by creation time, newest first. -/
theorem search_results_active_not_own_sorted (viewer : String) (f : SearchFilters)
    (store : List Trip) :
    (∀ t, t ∈ search_trips (some viewer) f store →
      t.status = "active" ∧ t.user_id ≠ viewer) ∧
    List.Pairwise (fun a b => b.created_at ≤ a.created_at)
      (search_trips (some viewer) f store) := by
  constructor
  · intro t ht
    unfold search_trips sortByCreatedDesc at ht
    rw [List.mem_insertionSort] at ht
    have hm := (List.mem_filter.mp ht).2
    unfold searchMatch at hm
    simp only [Bool.and_eq_true, beq_iff_eq, bne_iff_ne] at hm
    exact ⟨hm.1.1.1.1.1.1, hm.1.1.1.1.1.2⟩
  · unfold search_trips sortByCreatedDesc
    haveI : IsTotal Trip (fun a b => b.created_at ≤ a.created_at) :=
      ⟨fun a b => Nat.le_total _ _⟩
    haveI : IsTrans Trip (fun a b => b.created_at ≤ a.created_at) :=
      ⟨fun _ _ _ hab hbc => le_trans hbc hab⟩
    exact List.sorted_insertionSort _ _

/-- C6 witness: a concrete foreign active trip is returned and satisfies
the guarantees. -/
theorem search_results_active_not_own_sorted_witness :
    tripOther ∈ search_trips (some "bob") {} [tripOther] ∧
    (tripOther.status = "active" ∧ tripOther.user_id ≠ "bob") :=
  ⟨by decide,
    (search_results_active_not_own_sorted "bob" {} [tripOther]).1 tripOther (by decide)⟩

/-- C7 counterexample: the length bounds are applied to the
whitespace-stripped body, so a 1001-character body whose final character is
a space is accepted — "a 1001-character body fails" does not hold as
stated. -/
theorem send_trailing_space_1001_cex :
    longBody.length = 1001 ∧
    (send_message senderA { recipient_id := "b", message := longBody, trip_id := none }
      [senderA, recipientB] [] [] "m1" 5).1.isOk = true := by
  constructor
  · decide
  · decide

/-- C7 (amended): Send fails when the recipient does not exist, when the
sender equals the recipient, when the stripped body is empty, and when the
stripped body exceeds 1000 characters; with a stripped body of exactly 1000
characters (and resolving recipient, non-self sender, resolving optional
trip) it succeeds, and every persisted message carries `read = false` and
the stripped body.  The bounds apply to the body after `str.strip()`, so a
1001-character body fails only when its overflow survives stripping. -/
theorem send_message_validation (sender : MUser) (req : SendRequest) (users : List MUser)
    (trips : List MongoTrip) (msgs : List MessageDoc) (newId : String) (now : Nat) :
    ((pyStrip req.message).length = 0 →
      send_message sender req users trips msgs newId now =
        (.error (400, "Message cannot be empty"), msgs)) ∧
    ((pyStrip req.message).length > 1000 →
      send_message sender req users trips msgs newId now =
        (.error (400, "Message too long (max 1000 characters)"), msgs)) ∧
    (users.find? (fun u => u._id == req.recipient_id) = none →
      (send_message sender req users trips msgs newId now).1.isOk = false) ∧
    (sender._id = req.recipient_id →
      (send_message sender req users trips msgs newId now).1.isOk = false) ∧
    (∀ doc rest, send_message sender req users trips msgs newId now = (.ok doc, rest) →
      doc.read = false ∧ rest = msgs ++ [doc] ∧ doc.message = pyStrip req.message) ∧
    ((pyStrip req.message).length = 1000 →
      (∃ u, users.find? (fun u0 => u0._id == req.recipient_id) = some u) →
      sender._id ≠ req.recipient_id →
      (∀ tid, req.trip_id = some tid → tid ≠ "" →
        trips.any (fun t => t._id == tid) = true) →
      ∃ doc, send_message sender req users trips msgs newId now =
        (.ok doc, msgs ++ [doc]) ∧ doc.read = false) := by
  refine ⟨?_, ?_, ?_, ?_, ?_, ?_⟩
  · intro h
    simp only [send_message]
    rw [if_pos (show (pyStrip req.message).length < 1 by omega)]
  · intro h
    simp only [send_message]
    rw [if_neg (show ¬ (pyStrip req.message).length < 1 by omega), if_pos h]
  · intro h
    simp only [send_message, h]
    split
    · rfl
    · split
      · rfl
      · rfl
  · intro h
    simp only [send_message]
    split
    · rfl
    · split
      · rfl
      · split
        all_goals rfl
  · intro doc rest heq
    simp only [send_message] at heq
    split at heq
    · simp at heq
    · split at heq
      · simp at heq
      · split at heq
        · simp at heq
        · split at heq
          · simp at heq
          · split at heq
            · simp at heq
            · simp only [Prod.mk.injEq] at heq
              obtain ⟨h1, h2⟩ := heq
              injection h1 with h1
              subst h1
              subst h2
              exact ⟨rfl, rfl, rfl⟩
  · intro hlen hex hne htrip
    obtain ⟨u, hu⟩ := hex
    simp only [send_message]
    rw [if_neg (show ¬ (pyStrip req.message).length < 1 by omega),
      if_neg (show ¬ (pyStrip req.message).length > 1000 by omega)]
    simp only [hu]
    rw [if_neg hne]
    split
    · rename_i hcond
      exfalso
      apply hcond
      cases hrt : req.trip_id with
      | none => rfl
      | some tid =>
        by_cases he : tid = ""
        · simp [he]
        · simp only [if_neg he]
          exact htrip tid hrt he
    · exact ⟨_, rfl, rfl⟩

/-- C7 witness: a stripped body of exactly 1000 characters is accepted and
the stored message is unread. -/
theorem send_message_validation_witness :
    (pyStrip exactBody).length = 1000 ∧
    ∃ doc, send_message senderA { recipient_id := "b", message := exactBody, trip_id := none }
        [senderA, recipientB] [] [] "m2" 6 = (.ok doc, [] ++ [doc]) ∧ doc.read = false :=
  ⟨by decide,
    (send_message_validation senderA
        { recipient_id := "b", message := exactBody, trip_id := none }
        [senderA, recipientB] [] [] "m2" 6).2.2.2.2.2
      (by decide) ⟨recipientB, by decide⟩ (by decide) (fun tid h => nomatch h)⟩

theorem mark_read_count_aux (viewer_id conversation_id : String)
    (msgs : List MessageDoc) :
    ((msgs.zip (msgs.map (fun m =>
        if markReadMatch viewer_id conversation_id m then { m with read := true }
        else m))).filter (fun p => p.1.read != p.2.read)).length =
      (msgs.filter (markReadMatch viewer_id conversation_id)).length := by
  induction msgs with
  | nil => rfl
  | cons m rest ih =>
    simp only [List.map_cons, List.zip_cons_cons, List.filter_cons]
    by_cases hm : markReadMatch viewer_id conversation_id m = true
    · rw [if_pos hm]
      have hread : m.read = false := by
        unfold markReadMatch at hm
        simp only [Bool.and_eq_true, beq_iff_eq] at hm
        exact hm.2
      simp [hread, hm, ih]
    · rw [if_neg hm]
      simp [hm, ih]

/-- C8: marking a conversation read preserves the collection's length,
flips `read` to true exactly for the previously-unread messages of that
conversation addressed to the viewer, changes no other field of any
message, leaves every message the viewer sent untouched (using the
Send-established invariant that no message has sender = recipient), and
returns exactly the number of messages whose `read` flag changed. -/
theorem mark_read_flips_exactly_unread (viewer_id conversation_id : String)
    (msgs : List MessageDoc)
    (hinv : ∀ m ∈ msgs, m.sender_id ≠ m.recipient_id) :
    ((mark_messages_read viewer_id conversation_id msgs).1.length = msgs.length) ∧
    (∀ i (hi : i < msgs.length)
        (hi2 : i < (mark_messages_read viewer_id conversation_id msgs).1.length),
      ((((mark_messages_read viewer_id conversation_id msgs).1.get ⟨i, hi2⟩).read = true ↔
        ((msgs.get ⟨i, hi⟩).read = true ∨
          ((msgs.get ⟨i, hi⟩).conversation_id = conversation_id ∧
            (msgs.get ⟨i, hi⟩).recipient_id = viewer_id))) ∧
      ((mark_messages_read viewer_id conversation_id msgs).1.get ⟨i, hi2⟩)._id =
        (msgs.get ⟨i, hi⟩)._id ∧
      ((mark_messages_read viewer_id conversation_id msgs).1.get ⟨i, hi2⟩).sender_id =
        (msgs.get ⟨i, hi⟩).sender_id ∧
      ((mark_messages_read viewer_id conversation_id msgs).1.get ⟨i, hi2⟩).recipient_id =
        (msgs.get ⟨i, hi⟩).recipient_id ∧
      ((mark_messages_read viewer_id conversation_id msgs).1.get ⟨i, hi2⟩).trip_id =
        (msgs.get ⟨i, hi⟩).trip_id ∧
      ((mark_messages_read viewer_id conversation_id msgs).1.get ⟨i, hi2⟩).message =
        (msgs.get ⟨i, hi⟩).message ∧
      ((mark_messages_read viewer_id conversation_id msgs).1.get ⟨i, hi2⟩).created_at =
        (msgs.get ⟨i, hi⟩).created_at ∧
      ((mark_messages_read viewer_id conversation_id msgs).1.get ⟨i, hi2⟩).conversation_id =
        (msgs.get ⟨i, hi⟩).conversation_id ∧
      ((msgs.get ⟨i, hi⟩).sender_id = viewer_id →
        (mark_messages_read viewer_id conversation_id msgs).1.get ⟨i, hi2⟩ =
          msgs.get ⟨i, hi⟩))) ∧
    ((mark_messages_read viewer_id conversation_id msgs).2 =
      ((msgs.zip (mark_messages_read viewer_id conversation_id msgs).1).filter
        (fun p => p.1.read != p.2.read)).length) := by
  refine ⟨?_, ?_, ?_⟩
  · simp [mark_messages_read]
  · intro i hi hi2
    have hmap : (mark_messages_read viewer_id conversation_id msgs).1.get ⟨i, hi2⟩ =
        (if markReadMatch viewer_id conversation_id (msgs.get ⟨i, hi⟩) then
          { msgs.get ⟨i, hi⟩ with read := true } else msgs.get ⟨i, hi⟩) := by
      simp [mark_messages_read, List.get_eq_getElem, List.getElem_map]
    rw [hmap]
    by_cases hm : markReadMatch viewer_id conversation_id (msgs.get ⟨i, hi⟩) = true
    · rw [if_pos hm]
      unfold markReadMatch at hm
      simp only [Bool.and_eq_true, beq_iff_eq] at hm
      refine ⟨?_, rfl, rfl, rfl, rfl, rfl, rfl, rfl, ?_⟩
      · exact ⟨fun _ => Or.inr ⟨hm.1.1, hm.1.2⟩, fun _ => rfl⟩
      · intro hs
        exact absurd (hs.trans hm.1.2.symm) (hinv _ (List.get_mem msgs i hi))
    · rw [if_neg hm]
      refine ⟨?_, rfl, rfl, rfl, rfl, rfl, rfl, rfl, fun _ => rfl⟩
      constructor
      · exact Or.inl
      · intro h
        rcases h with h | ⟨hc, hr⟩
        · exact h
        · by_cases hread : (msgs.get ⟨i, hi⟩).read = true
          · exact hread
          · exfalso
            apply hm
            unfold markReadMatch
            simp only [Bool.and_eq_true, beq_iff_eq]
            exact ⟨⟨hc, hr⟩, by simpa using hread⟩
  · simp only [mark_messages_read]
    exact (mark_read_count_aux viewer_id conversation_id msgs).symm

/-- C8 witness: the theorem applied to a concrete two-message conversation
(one message to the viewer, one from the viewer). -/
theorem mark_read_flips_exactly_unread_witness :
    (∀ m ∈ [msgToViewer, msgFromViewer], m.sender_id ≠ m.recipient_id) ∧
    (mark_messages_read "a" "a_b" [msgToViewer, msgFromViewer]).1.length =
      ([msgToViewer, msgFromViewer] : List MessageDoc).length :=
  ⟨by decide,
    (mark_read_flips_exactly_unread "a" "a_b" [msgToViewer, msgFromViewer] (by decide)).1⟩

/-- C9 counterexample: `verify_token` performs no purpose-tag check — a
signed, unexpired token whose purpose is `"remember"` (not `"access"`) is
accepted and the resolved user returned. -/
theorem verify_token_accepts_remember_cex :
    rememberToken.payload.type = some "remember" ∧
    verify_token 0 (some rememberToken) [rememberUser] = .ok rememberUser :=
  ⟨rfl, rfl⟩

/-- C9 (amended): `refresh_token` validates signature, expiry and purpose
tag — it succeeds only when the purpose is exactly `"remember"` (in
particular every `"access"` token is rejected even with valid signature and
expiry) and mints an `"access"` token; `verify_token` validates signature
and expiry and resolves the carried user id, but checks no purpose tag, so
e.g. valid `"remember"` tokens pass it. -/
theorem token_validation_purposes (now : Int) (t : PresentedToken) (users : List MUser) :
    (∀ p, refresh_token now (some t) users = .ok p →
      t.signatureValid = true ∧ now < t.payload.exp ∧
      t.payload.type = some "remember" ∧ p.type = some "access") ∧
    (t.payload.type ≠ some "remember" →
      (refresh_token now (some t) users).isOk = false) ∧
    (∀ u, verify_token now (some t) users = .ok u →
      t.signatureValid = true ∧ now < t.payload.exp ∧
      ∃ uid, t.payload.user_id = some uid ∧ UserModel.find_by_id uid users = some u) := by
  refine ⟨?_, ?_, ?_⟩
  · intro p hp
    simp only [refresh_token] at hp
    by_cases hsig : t.signatureValid = true
    case neg =>
      rw [if_pos hsig] at hp
      exact absurd hp (by simp)
    case pos =>
      rw [if_neg (not_not_intro hsig)] at hp
      by_cases hexp : t.payload.exp ≤ now
      · rw [if_pos hexp] at hp
        exact absurd hp (by simp)
      · rw [if_neg hexp] at hp
        by_cases htype : t.payload.type = some "remember"
        case neg =>
          rw [if_pos htype] at hp
          exact absurd hp (by simp)
        case pos =>
          rw [if_neg (not_not_intro htype)] at hp
          cases huid : t.payload.user_id with
          | none => simp only [huid] at hp; exact absurd hp (by simp)
          | some uid =>
            simp only [huid] at hp
            cases hfind : UserModel.find_by_id uid users with
            | none => simp only [hfind] at hp; exact absurd hp (by simp)
            | some user =>
              simp only [hfind] at hp
              injection hp with hp
              exact ⟨hsig, not_le.mp hexp, htype, by rw [← hp]⟩
  · intro hne
    simp only [refresh_token]
    split
    · rfl
    · split
      · rfl
      · rfl
  · intro u hu
    simp only [verify_token] at hu
    by_cases hsig : t.signatureValid = true
    case neg =>
      rw [if_pos hsig] at hu
      exact absurd hu (by simp)
    case pos =>
      rw [if_neg (not_not_intro hsig)] at hu
      by_cases hexp : t.payload.exp ≤ now
      · rw [if_pos hexp] at hu
        exact absurd hu (by simp)
      · rw [if_neg hexp] at hu
        cases huid : t.payload.user_id with
        | none => simp only [huid] at hu; exact absurd hu (by simp)
        | some uid =>
          simp only [huid] at hu
          cases hfind : UserModel.find_by_id uid users with
          | none => simp only [hfind] at hu; exact absurd hu (by simp)
          | some user =>
            simp only [hfind] at hu
            injection hu with hu
            exact ⟨hsig, not_le.mp hexp, uid, rfl, by rw [hfind, hu]⟩

/-- C9 witness: a valid `"access"` token is refused by the refresh
endpoint. -/
theorem token_validation_purposes_witness :
    accessToken.payload.type ≠ some "remember" ∧
    (refresh_token 0 (some accessToken) [rememberUser]).isOk = false :=
  ⟨by decide, (token_validation_purposes 0 accessToken [rememberUser]).2.1 (by decide)⟩

/-- C10: the shared `token_required` guard — wrapped around trip
create/update/delete/my-trips/stats, message send/conversation/mark-read
and own-profile get/update — answers 401 for any decodable token whose
purpose tag is not `"access"`, answers 401 ("Email not verified") for an
otherwise-valid access token resolving to an unverified account, and passes
a user through only when the token's purpose is `"access"` and the resolved
user is verified; hence an unverified user can never invoke a guarded
operation. -/
theorem token_required_guard_checks (now : Int) (tok : Option PresentedToken)
    (users : List MUser) :
    (∀ t p, tok = some t → decode_jwt_token now t = some p → p.type ≠ some "access" →
      token_required_check now tok users = .error (401, "Invalid token type")) ∧
    (∀ t p e u, tok = some t → decode_jwt_token now t = some p →
      p.type = some "access" → p.email = some e →
      UserModel.find_by_email e users = some u → u.is_verified = false →
      token_required_check now tok users = .error (401, "Email not verified")) ∧
    (∀ u, token_required_check now tok users = .ok u →
      u.is_verified = true ∧
      ∃ t p, tok = some t ∧ decode_jwt_token now t = some p ∧ p.type = some "access" ∧
        ∃ e, p.email = some e ∧ UserModel.find_by_email e users = some u) := by
  refine ⟨?_, ?_, ?_⟩
  · intro t p htok hdec htype
    subst htok
    simp only [token_required_check, hdec]
    rw [if_pos htype]
  · intro t p e u htok hdec htype hemail hfind hver
    subst htok
    simp only [token_required_check, hdec]
    rw [if_neg (not_not_intro htype)]
    simp only [hemail, hfind]
    rw [if_pos (by simp [hver])]
  · intro u hu
    cases tok with
    | none => simp [token_required_check] at hu
    | some t =>
      simp only [token_required_check] at hu
      cases hdec : decode_jwt_token now t with
      | none => simp only [hdec] at hu; exact absurd hu (by simp)
      | some p =>
        simp only [hdec] at hu
        by_cases htype : p.type = some "access"
        case neg =>
          rw [if_pos htype] at hu
          exact absurd hu (by simp)
        case pos =>
          rw [if_neg (not_not_intro htype)] at hu
          cases hemail : p.email with
          | none => simp only [hemail] at hu; exact absurd hu (by simp)
          | some e =>
            simp only [hemail] at hu
            cases hfind : UserModel.find_by_email e users with
            | none => simp only [hfind] at hu; exact absurd hu (by simp)
            | some user =>
              simp only [hfind] at hu
              by_cases hver : user.is_verified = true
              case neg =>
                rw [if_pos hver] at hu
                exact absurd hu (by simp)
              case pos =>
                rw [if_neg (not_not_intro hver)] at hu
                injection hu with hu
                subst hu
                exact ⟨hver, t, p, rfl, hdec, htype, e, hemail, hfind⟩

/-- C10 witness: a valid access token whose account is unverified is
refused with 401 "Email not verified". -/
theorem token_required_guard_checks_witness :
    unverifiedUser.is_verified = false ∧
    token_required_check 0 (some unverifiedAccessToken) [unverifiedUser] =
      .error (401, "Email not verified") :=
  ⟨rfl,
    (token_required_guard_checks 0 (some unverifiedAccessToken) [unverifiedUser]).2.1
      unverifiedAccessToken unverifiedPayload "u2@x.com" unverifiedUser rfl rfl rfl rfl
      (by decide) rfl⟩

end CargoHitching
